import Mathlib

/-!
Shallow embedding of `src/examples/optimized_function.py`.

Python runtime values are modelled by the inductive type `Value` (the kinds
that occur in the repository and its claims: int, float, str, None, list,
dict).  Python's arbitrary-precision integers become `Int`.  Python floats
are modelled as exact rationals (`ℚ`): rounding of float arithmetic is not
modelled, but the one discrete failure of CPython float-by-int
multiplication is — multiplying a `float` by an `int` first converts the
int to a float, and CPython raises `OverflowError` ("int too large to
convert to float") exactly when the integer's magnitude reaches
`2 ^ 1024 - 2 ^ 970` (the first integer that rounds to `2 ^ 1024`, above
the largest finite binary64 value).  A float-by-float overflow yields
`inf` silently, so that conversion is the only failure `value * multiplier`
can raise in `_process_numeric_value`.

String repetition (`value * multiplier` for a `str`) gets the same
CPython-exact treatment: before any allocation, CPython deterministically
raises `OverflowError` ("cannot fit 'int' into an index-sized integer")
when the multiplier does not fit in `Py_ssize_t` (outside
`[-2 ^ 63, 2 ^ 63 - 1]` on this 64-bit build), and `OverflowError`
("repeated string is too long") when the count is at least `2` and the
string's length exceeds `(2 ^ 63 - 1) / count`.  Both checks are modelled
in `strMul`; the `MemoryError` a repetition that passes both checks can
still hit is allocation-dependent, not a deterministic function of the
values, and is not modelled.

Exceptions are modelled with `Except PyError`; log output (the module
logger's `warning` / `error` calls) is modelled by returning a list of
`LogRec` alongside each result.  The `type_info` diagnostic block built by
`safe_example_function` (input type name, truncated `str()` preview,
multiplier echo) is pure presentation and no claim refers to its contents,
so the `SafeResult` record models the `success` / `result` / `error` keys.
-/

set_option exponentiation.threshold 1100

/-- A Python runtime value, restricted to the kinds exercised by the
repository: `int`, `float`, `str`, `None`, `list`, `dict`. -/
inductive Value where
  | vInt (n : Int)
  | vFloat (q : ℚ)
  | vStr (s : String)
  | vNone
  | vList (elems : List Value)
  | vDict (entries : List (Value × Value))

/-- One record emitted through the module logger (`logger.warning` /
`logger.error`).  `level` is the log level, `message` the formatted text. -/
structure LogRec where
  level : String
  message : String

/-- The Python exceptions that play a role in `optimized_function.py`:
`TypeError`, `ValueError`, `OverflowError`, and a catch-all for any other
exception type (carrying its class name and message). -/
inductive PyError where
  | typeError (msg : String)
  | valueError (msg : String)
  | overflowError (msg : String)
  | otherError (name msg : String)

/-- Python `type(v).__name__` for the modelled kinds. -/
def typeName : Value → String
  | .vInt _ => "int"
  | .vFloat _ => "float"
  | .vStr _ => "str"
  | .vNone => "NoneType"
  | .vList _ => "list"
  | .vDict _ => "dict"

/-- A single-quote character, built by code point to keep literals plain. -/
def singleQuote : String := String.singleton (Char.ofNat 39)

/-- How `f"{type(v)}"` renders a class in CPython. -/
def typeRepr (v : Value) : String :=
  "<class " ++ singleQuote ++ typeName v ++ singleQuote ++ ">"

/-- The `TypeError` message raised by `optimized_example_function` for an
unsupported input kind. -/
def unsupportedMsg (v : Value) : String :=
  "Unsupported type: " ++ typeRepr v ++ ". Supported types: int, float, str"

/-- Python `isinstance(v, (int, float))`. -/
def isNumericValue : Value → Bool
  | .vInt _ => true
  | .vFloat _ => true
  | _ => false

/-- Python `isinstance(v, str)`. -/
def isStringValue : Value → Bool
  | .vStr _ => true
  | _ => false

/-- Python `isinstance(v, list)`. -/
def isListValue : Value → Bool
  | .vList _ => true
  | _ => false

/-- The smallest magnitude at which CPython refuses to convert an `int` to
a `float`: `2 ^ 1024 - 2 ^ 970` rounds (half-to-even) up to `2 ^ 1024`,
past the largest finite binary64 value, and `PyLong_AsDouble` raises
`OverflowError`. -/
def floatMaxConvert : Nat := 2 ^ 1024 - 2 ^ 970

/-- The Python expression `value * multiplier` for a numeric `value` and an
`int` multiplier.  `int * int` never fails; `float * int` first converts
the int to a float and raises `OverflowError` when its magnitude reaches
`floatMaxConvert` (the float product itself is modelled exactly). -/
def numericMul : Value → Int → Except PyError Value
  | .vInt n, m => .ok (.vInt (n * m))
  | .vFloat q, m =>
      if floatMaxConvert ≤ m.natAbs then
        .error (.overflowError "int too large to convert to float")
      else
        .ok (.vFloat (q * (m : ℚ)))
  | v, _ => .error (.typeError (unsupportedMsg v))

/-- Python `str(e)` for the modelled exceptions. -/
def pyErrMsg : PyError → String
  | .typeError msg => msg
  | .valueError msg => msg
  | .overflowError msg => msg
  | .otherError _ msg => msg

/-- Python `type(e).__name__` for the modelled exceptions. -/
def pyErrName : PyError → String
  | .typeError _ => "TypeError"
  | .valueError _ => "ValueError"
  | .overflowError _ => "OverflowError"
  | .otherError name _ => name

/-- The helper `_process_numeric_value(value, multiplier)`: compute
`value * multiplier`; when both the input and the result are ints and the
result's magnitude exceeds `10 ^ 15`, log a warning; on `OverflowError`
log an error and re-raise. -/
def _process_numeric_value (value : Value) (multiplier : Int) :
    Except PyError Value × List LogRec :=
  match numericMul value multiplier with
  | .ok result =>
      match value, result with
      | .vInt _, .vInt n =>
          if 10 ^ 15 < n.natAbs then
            (.ok result,
             [⟨"warning",
               "Result " ++ toString n ++
                 " is very large, consider reviewing input values"⟩])
          else
            (.ok result, [])
      | _, _ => (.ok result, [])
  | .error (.overflowError msg) =>
      (.error (.overflowError msg),
       [⟨"error", "Overflow error in numeric processing: " ++ msg⟩])
  | .error e => (.error e, [])

/-- Python `value * multiplier` for a `str` and a non-negative `int`:
the string concatenated with itself `multiplier` times. -/
def repeatStr : Nat → String → String
  | 0, _ => ""
  | n + 1, s => s ++ repeatStr n s

/-- The largest Python `Py_ssize_t` value on this 64-bit build. -/
def PY_SSIZE_T_MAX : Nat := 2 ^ 63 - 1

/-- The message of the `OverflowError` CPython raises when an `int` does
not fit in `Py_ssize_t`. -/
def indexSizedIntMsg : String :=
  "cannot fit " ++ singleQuote ++ "int" ++ singleQuote ++
    " into an index-sized integer"

/-- The Python expression `value * m` for a `str` and an `int`: sequence
repetition.  CPython first converts the count to `Py_ssize_t` and raises
`OverflowError` when it does not fit; `unicode_repeat` then returns the
empty string for counts below `1` and the string itself for count `1`,
and for larger counts raises `OverflowError` when the string's length
exceeds `PY_SSIZE_T_MAX / count`; otherwise the repetition is built (its
allocation-dependent `MemoryError` is not modelled). -/
def strMul (value : String) (m : Int) : Except PyError String :=
  if m < -(2 ^ 63 : Int) ∨ (2 ^ 63 : Int) ≤ m then
    .error (.overflowError indexSizedIntMsg)
  else if 1 < m ∧ PY_SSIZE_T_MAX / m.toNat < value.length then
    .error (.overflowError "repeated string is too long")
  else
    .ok (repeatStr m.toNat value)

/-- The helper `_process_string_value(value, multiplier)`: empty string when the
multiplier is zero; otherwise check the `10 ^ 6`-character warning
threshold (pure big-int arithmetic, logged before the repetition), then
evaluate `value * multiplier`, whose overflow failures propagate. -/
def _process_string_value (value : String) (multiplier : Int) :
    Except PyError String × List LogRec :=
  if multiplier = 0 then (.ok "", [])
  else if 10 ^ 6 < (value.length : Int) * multiplier then
    (strMul value multiplier,
     [⟨"warning",
       "String multiplication would create a very large string (" ++
         toString ((value.length : Int) * multiplier) ++ " chars)"⟩])
  else
    (strMul value multiplier, [])

/-- The transform `optimized_example_function(input_value, multiplier)`: reject a
negative multiplier with `ValueError`; dispatch numeric values to
`_process_numeric_value` and strings to `_process_string_value`; raise
`TypeError` for every other kind. -/
def optimized_example_function (input_value : Value) (multiplier : Int) :
    Except PyError Value × List LogRec :=
  if multiplier < 0 then
    (.error (.valueError "Multiplier must be non-negative"), [])
  else if isNumericValue input_value then
    _process_numeric_value input_value multiplier
  else
    match input_value with
    | .vStr s =>
        let r := _process_string_value s multiplier
        (r.1.map Value.vStr, r.2)
    | v => (.error (.typeError (unsupportedMsg v)), [])

/-- The `error` entry of the result dictionary built by
`safe_example_function`: the exception's class name and message. -/
structure ErrorInfo where
  type : String
  message : String

/-- The result dictionary of `safe_example_function`, restricted to its
`success` / `result` / `error` keys (the `type_info` diagnostic block is
presentation only and no claim refers to it). -/
structure SafeResult where
  success : Bool
  result : Option Value
  error : Option ErrorInfo

/-- Whether an exception is caught by the first handler of
`safe_example_function`, `except (TypeError, ValueError, OverflowError)`. -/
def isExpectedErr : PyError → Bool
  | .typeError _ => true
  | .valueError _ => true
  | .overflowError _ => true
  | .otherError _ _ => false

/-- The two `except` clauses of `safe_example_function` as a pure mapping:
an expected exception is reported with its own class name and message; any
other exception is logged and replaced by the generic `UnexpectedError`
entry. -/
def exceptionToErrorInfo (e : PyError) : ErrorInfo × List LogRec :=
  if isExpectedErr e then
    (⟨pyErrName e, pyErrMsg e⟩, [])
  else
    (⟨"UnexpectedError", "An unexpected error occurred"⟩,
     [⟨"error", "Unexpected error in safe_example_function: " ++ pyErrMsg e⟩])

/-- The wrapper `safe_example_function(input_value, multiplier)`: call
`optimized_example_function` and never let an exception escape — on
success fill `success` / `result`, on failure fill `error` via the two
`except` clauses. -/
def safe_example_function (input_value : Value) (multiplier : Int) :
    SafeResult × List LogRec :=
  match optimized_example_function input_value multiplier with
  | (.ok r, logs) => (⟨true, some r, none⟩, logs)
  | (.error e, logs) =>
      let h := exceptionToErrorInfo e
      (⟨false, none, some h.1⟩, logs ++ h.2)

/-- Python `enumerate(values)` starting at index `k`. -/
def enumFrom (k : Nat) : List Value → List (Nat × Value)
  | [] => []
  | v :: vs => (k, v) :: enumFrom (k + 1) vs

/-- The grouping loop of `batch_process_values`: append each indexed value
to the numeric, string, or other group, preserving encounter order. -/
def groupPairs (pairs : List (Nat × Value)) :
    List (Nat × Value) × List (Nat × Value) × List (Nat × Value) :=
  pairs.foldl
    (fun acc p =>
      if isNumericValue p.2 then (acc.1 ++ [p], acc.2.1, acc.2.2)
      else if isStringValue p.2 then (acc.1, acc.2.1 ++ [p], acc.2.2)
      else (acc.1, acc.2.1, acc.2.2 ++ [p]))
    ([], [], [])

/-- One group-processing loop of `batch_process_values`:
`results[i] = safe_example_function(value, multiplier)` for each `(i,
value)` of the group. -/
def writeResults (multiplier : Int) (results : List (Option SafeResult))
    (group : List (Nat × Value)) : List (Option SafeResult) :=
  group.foldl
    (fun rs p => rs.set p.1 (some (safe_example_function p.2 multiplier).1))
    results

/-- The mutable store of one `batch_process_values` call: the caller's
`values` list and the freshly allocated `results` list.  Every list
operation the source performs is threaded through this state, so that
preservation of `input` states that the input list is never written. -/
structure BatchState where
  input : List Value
  results : List (Option SafeResult)

/-- The body of `batch_process_values` on a list: group the indexed input
values by kind (reads only), allocate `results = [None] * len(values)`,
then run the three group loops, each writing into `results` at the
original indices. -/
def batchRun (values : List Value) (multiplier : Int) : BatchState :=
  let st0 : BatchState := ⟨values, []⟩
  let g := groupPairs (enumFrom 0 st0.input)
  let st1 : BatchState :=
    { st0 with results := List.replicate st0.input.length none }
  let st2 : BatchState :=
    { st1 with results := writeResults multiplier st1.results g.1 }
  let st3 : BatchState :=
    { st2 with results := writeResults multiplier st2.results g.2.1 }
  let st4 : BatchState :=
    { st3 with results := writeResults multiplier st3.results g.2.2 }
  st4

/-- The batch entry `batch_process_values(values, multiplier)`: raise
`TypeError("Values must be a list")` unless the argument is a `list`,
otherwise run the grouped per-element processing. -/
def batch_process_values (values : Value) (multiplier : Int) :
    Except PyError (List (Option SafeResult)) :=
  match values with
  | .vList xs => .ok (batchRun xs multiplier).results
  | _ => .error (.typeError "Values must be a list")

/-- Python's sequence types among the modelled kinds (`list` and `str` are
sequence types; `int`, `float`, `NoneType`, `dict` are not).  This follows
the spec's wording "sequence type" for comparison with the code's
`isinstance(values, list)` check. -/
def isSequenceType : Value → Bool
  | .vList _ => true
  | .vStr _ => true
  | _ => false

/-- Whether a value's kind is accepted by `optimized_example_function`
(`int`, `float` or `str`). -/
def isSupportedType (v : Value) : Bool := isNumericValue v || isStringValue v

/-- Whether an outcome of `optimized_example_function` is a raised
`TypeError` (the spec's `UnsupportedType`). -/
def exceptIsTypeError : Except PyError Value → Bool
  | .error (.typeError _) => true
  | _ => false

/-- A concrete factor too large to convert to a Python float, used to
exhibit the `OverflowError` path of float processing. -/
def hugeFactor : Int := Int.ofNat (2 ^ 1024)

/-! Evaluation lemmas for `optimized_example_function`, by input kind. -/

lemma opt_of_neg (v : Value) (m : Int) (hm : m < 0) :
    optimized_example_function v m =
      (.error (.valueError "Multiplier must be non-negative"), []) := by
  unfold optimized_example_function
  rw [if_pos hm]

lemma opt_vInt (n m : Int) (hm : ¬ m < 0) :
    optimized_example_function (.vInt n) m =
      (.ok (.vInt (n * m)),
       if 10 ^ 15 < (n * m).natAbs then
         [⟨"warning",
           "Result " ++ toString (n * m) ++
             " is very large, consider reviewing input values"⟩]
       else []) := by
  unfold optimized_example_function
  rw [if_neg hm, if_pos (show isNumericValue (.vInt n) = true from rfl)]
  by_cases hbig : 10 ^ 15 < (n * m).natAbs
  · simp only [_process_numeric_value, numericMul, if_pos hbig]
  · simp only [_process_numeric_value, numericMul, if_neg hbig]

lemma opt_vFloat_ok (q : ℚ) (m : Int) (hm : ¬ m < 0)
    (hc : ¬ floatMaxConvert ≤ m.natAbs) :
    optimized_example_function (.vFloat q) m = (.ok (.vFloat (q * m)), []) := by
  unfold optimized_example_function
  rw [if_neg hm, if_pos (show isNumericValue (.vFloat q) = true from rfl)]
  simp only [_process_numeric_value, numericMul, if_neg hc]

lemma opt_vFloat_overflow (q : ℚ) (m : Int) (hm : ¬ m < 0)
    (hc : floatMaxConvert ≤ m.natAbs) :
    optimized_example_function (.vFloat q) m =
      (.error (.overflowError "int too large to convert to float"),
       [⟨"error",
         "Overflow error in numeric processing: int too large to convert to float"⟩]) := by
  unfold optimized_example_function
  rw [if_neg hm, if_pos (show isNumericValue (.vFloat q) = true from rfl)]
  simp only [_process_numeric_value, numericMul, if_pos hc]
  rfl

lemma opt_vStr (t : String) (m : Int) (hm : ¬ m < 0) :
    optimized_example_function (.vStr t) m =
      ((strMul t m).map Value.vStr,
       if m = 0 then []
       else if 10 ^ 6 < (t.length : Int) * m then
         [⟨"warning",
           "String multiplication would create a very large string (" ++
             toString ((t.length : Int) * m) ++ " chars)"⟩]
       else []) := by
  unfold optimized_example_function
  rw [if_neg hm,
    if_neg (show ¬ isNumericValue (.vStr t) = true from Bool.false_ne_true)]
  by_cases h0 : m = 0
  · subst h0
    rfl
  · by_cases hbig : 10 ^ 6 < (t.length : Int) * m
    · simp only [_process_string_value, if_neg h0, if_pos hbig]
    · simp only [_process_string_value, if_neg h0, if_neg hbig]

lemma strMul_ok (t : String) (m : Int)
    (h1 : ¬ (m < -(2 ^ 63 : Int) ∨ (2 ^ 63 : Int) ≤ m))
    (h2 : ¬ (1 < m ∧ PY_SSIZE_T_MAX / m.toNat < t.length)) :
    strMul t m = .ok (repeatStr m.toNat t) := by
  unfold strMul
  rw [if_neg h1, if_neg h2]

lemma strMul_error_overflow (t : String) (m : Int) (e : PyError)
    (h : strMul t m = .error e) : ∃ msg, e = .overflowError msg := by
  unfold strMul at h
  by_cases h1 : m < -(2 ^ 63 : Int) ∨ (2 ^ 63 : Int) ≤ m
  · rw [if_pos h1] at h
    injection h with h2
    exact ⟨_, h2.symm⟩
  · rw [if_neg h1] at h
    by_cases h2 : 1 < m ∧ PY_SSIZE_T_MAX / m.toNat < t.length
    · rw [if_pos h2] at h
      injection h with h3
      exact ⟨_, h3.symm⟩
    · rw [if_neg h2] at h
      exact absurd h (by simp)

lemma strMul_error_expected (t : String) (m : Int) (e : PyError)
    (h : strMul t m = .error e) : isExpectedErr e = true := by
  obtain ⟨msg, rfl⟩ := strMul_error_overflow t m e h
  rfl

lemma opt_unsupported (v : Value) (m : Int) (hm : ¬ m < 0)
    (hn : isNumericValue v = false) (hs : isStringValue v = false) :
    optimized_example_function v m =
      (.error (.typeError (unsupportedMsg v)), []) := by
  unfold optimized_example_function
  rw [if_neg hm, if_neg (by simp [hn])]
  cases v with
  | vInt n => simp [isNumericValue] at hn
  | vFloat q => simp [isNumericValue] at hn
  | vStr s => simp [isStringValue] at hs
  | vNone => rfl
  | vList l => rfl
  | vDict d => rfl

/-- Every exception `optimized_example_function` can actually raise is one
of the three kinds caught by the first handler of `safe_example_function`
(`TypeError`, `ValueError`, `OverflowError`). -/
lemma opt_error_expected (v : Value) (m : Int) (e : PyError)
    (h : (optimized_example_function v m).1 = .error e) :
    isExpectedErr e = true := by
  by_cases hm : m < 0
  · rw [opt_of_neg v m hm] at h
    injection h with h2
    subst h2
    rfl
  · cases v with
    | vInt n => rw [opt_vInt n m hm] at h; simp at h
    | vFloat q =>
        by_cases hc : floatMaxConvert ≤ m.natAbs
        · rw [opt_vFloat_overflow q m hm hc] at h
          injection h with h2
          subst h2
          rfl
        · rw [opt_vFloat_ok q m hm hc] at h; simp at h
    | vStr s =>
        rw [opt_vStr s m hm] at h
        rcases hsm : strMul s m with e2 | r2
        · rw [hsm] at h
          injection h with h2
          subst h2
          exact strMul_error_expected s m _ hsm
        · rw [hsm] at h
          simp [Except.map] at h
    | vNone =>
        rw [opt_unsupported .vNone m hm rfl rfl] at h
        injection h with h2
        subst h2
        rfl
    | vList l =>
        rw [opt_unsupported (.vList l) m hm rfl rfl] at h
        injection h with h2
        subst h2
        rfl
    | vDict d =>
        rw [opt_unsupported (.vDict d) m hm rfl rfl] at h
        injection h with h2
        subst h2
        rfl

/-! Case lemmas for `safe_example_function`. -/

lemma safe_of_ok (v : Value) (m : Int) (r : Value) (logs : List LogRec)
    (h : optimized_example_function v m = (.ok r, logs)) :
    safe_example_function v m = (⟨true, some r, none⟩, logs) := by
  unfold safe_example_function
  rw [h]

lemma safe_of_error (v : Value) (m : Int) (e : PyError) (logs : List LogRec)
    (h : optimized_example_function v m = (.error e, logs)) :
    safe_example_function v m =
      (⟨false, none, some (exceptionToErrorInfo e).1⟩,
       logs ++ (exceptionToErrorInfo e).2) := by
  unfold safe_example_function
  rw [h]

/-- Claim C1: for every input value (of any modelled kind, including None,
lists and dicts) and every integer factor (including negative ones),
`safe_example_function` returns a `SafeResult` record: either a success
carrying a value, or a recorded failure carrying an error entry — no
failure propagates to the caller. -/
theorem claim_C1 (v : Value) (m : Int) :
    ((safe_example_function v m).1.success = true ∧
      (safe_example_function v m).1.result.isSome = true) ∨
    ((safe_example_function v m).1.success = false ∧
      (safe_example_function v m).1.error.isSome = true) := by
  rcases h : optimized_example_function v m with ⟨out, logs⟩
  cases out with
  | ok r => left; rw [safe_of_ok v m r logs h]; exact ⟨rfl, rfl⟩
  | error e => right; rw [safe_of_error v m e logs h]; exact ⟨rfl, rfl⟩

/-- Claim C6: `safe_example_function` reports success exactly when
`optimized_example_function` does not fail, and on success its `result`
field is exactly the transformed value. -/
theorem claim_C6 (v : Value) (m : Int) :
    (safe_example_function v m).1.success =
      ((optimized_example_function v m).1.toOption).isSome ∧
    (safe_example_function v m).1.result =
      (optimized_example_function v m).1.toOption := by
  rcases h : optimized_example_function v m with ⟨out, logs⟩
  cases out with
  | ok r => rw [safe_of_ok v m r logs h]; exact ⟨rfl, rfl⟩
  | error e => rw [safe_of_error v m e logs h]; exact ⟨rfl, rfl⟩

/-- Claim C7: every `SafeResult` produced by `safe_example_function`
satisfies the data-model invariant: `success` holds iff the `error` field
is empty iff the `result` field is filled. -/
theorem claim_C7 (v : Value) (m : Int) :
    (safe_example_function v m).1.success =
      (safe_example_function v m).1.error.isNone ∧
    (safe_example_function v m).1.error.isNone =
      (safe_example_function v m).1.result.isSome := by
  rcases h : optimized_example_function v m with ⟨out, logs⟩
  cases out with
  | ok r => rw [safe_of_ok v m r logs h]; exact ⟨rfl, rfl⟩
  | error e => rw [safe_of_error v m e logs h]; exact ⟨rfl, rfl⟩

/-! Claims about the transform itself (C3, C4, C5). -/

lemma repeatStr_length (n : Nat) (t : String) :
    (repeatStr n t).length = t.length * n := by
  induction n with
  | zero => simp [repeatStr]
  | succ k ih =>
      simp only [repeatStr, String.length_append, ih]
      ring

/-- Claim C3 (amended): an integer value and non-negative factor always
yield exactly the arithmetic product, with at most a warning-level log
entry for results beyond `10 ^ 15` in magnitude; a float value yields the
product exactly when the factor is small enough to convert to a float
(below `floatMaxConvert`), and otherwise `optimized_example_function`
raises `OverflowError` instead of returning. -/
theorem claim_C3_amended :
    (∀ n m : Int, ¬ m < 0 →
        (optimized_example_function (.vInt n) m).1 = .ok (.vInt (n * m)) ∧
        ((optimized_example_function (.vInt n) m).2.all
          fun l => l.level == "warning") = true) ∧
    (∀ (q : ℚ) (m : Int), ¬ m < 0 → m.natAbs < floatMaxConvert →
        optimized_example_function (.vFloat q) m = (.ok (.vFloat (q * m)), [])) ∧
    (∀ (q : ℚ) (m : Int), ¬ m < 0 → floatMaxConvert ≤ m.natAbs →
        (optimized_example_function (.vFloat q) m).1 =
          .error (.overflowError "int too large to convert to float")) := by
  refine ⟨fun n m hm => ?_, fun q m hm hc => ?_, fun q m hm hc => ?_⟩
  · rw [opt_vInt n m hm]
    refine ⟨rfl, ?_⟩
    by_cases hbig : 10 ^ 15 < (n * m).natAbs
    · rw [if_pos hbig]; rfl
    · rw [if_neg hbig]; rfl
  · exact opt_vFloat_ok q m hm (not_le.mpr hc)
  · rw [opt_vFloat_overflow q m hm hc]

/-- Claim C3, counterexample to the original statement: the float value
`1.0` and the non-negative factor `2 ^ 1024` make
`optimized_example_function` fail with `OverflowError` instead of
returning the product. -/
theorem claim_C3_counterexample :
    isNumericValue (.vFloat 1) = true ∧
    ((0 : Int) ≤ hugeFactor) = True ∧
    (optimized_example_function (.vFloat 1) hugeFactor).1 =
      .error (.overflowError "int too large to convert to float") :=
  ⟨rfl, eq_true (by decide), rfl⟩

/-- Claim C3 witness: `claim_C3_amended` applied at concrete inputs. -/
theorem claim_C3_amended_witness :
    ((optimized_example_function (.vInt 5) 2).1 = .ok (.vInt (5 * 2)) ∧
      ((optimized_example_function (.vInt 5) 2).2.all
        fun l => l.level == "warning") = true) ∧
    optimized_example_function (.vFloat (7 / 2)) 4 =
      (.ok (.vFloat (7 / 2 * ((4 : Int) : ℚ))), []) ∧
    (optimized_example_function (.vFloat 1) hugeFactor).1 =
      .error (.overflowError "int too large to convert to float") :=
  ⟨claim_C3_amended.1 5 2 (by decide),
   claim_C3_amended.2.1 (7 / 2) 4 (by decide) (by decide),
   claim_C3_amended.2.2 1 hugeFactor (by decide) (by decide)⟩

/-- Claim C4 (amended): a string value and non-negative factor succeed —
returning the string concatenated with itself factor-many times, of
length `len(t) * factor`, with factor `0` giving the empty string and any
log entries warning-level only (no truncation) — provided the repetition
passes CPython's deterministic size checks: the factor fits in
`Py_ssize_t`, and when the factor exceeds `1` the string's length is at
most `PY_SSIZE_T_MAX / factor`; otherwise the repetition raises
`OverflowError` instead of returning. -/
theorem claim_C4_amended (t : String) (m : Int) (hm : ¬ m < 0)
    (hfit : m < 2 ^ 63)
    (hsize : ¬ (1 < m ∧ PY_SSIZE_T_MAX / m.toNat < t.length)) :
    (optimized_example_function (.vStr t) m).1 =
      .ok (.vStr (repeatStr m.toNat t)) ∧
    (repeatStr m.toNat t).length = t.length * m.toNat ∧
    (optimized_example_function (.vStr t) 0).1 = .ok (.vStr "") ∧
    ((optimized_example_function (.vStr t) m).2.all
      fun l => l.level == "warning") = true := by
  have h1 : ¬ (m < -(2 ^ 63 : Int) ∨ (2 ^ 63 : Int) ≤ m) := by omega
  rw [opt_vStr t m hm, opt_vStr t 0 (by decide)]
  rw [strMul_ok t m h1 hsize]
  refine ⟨rfl, repeatStr_length m.toNat t, rfl, ?_⟩
  by_cases h0 : m = 0
  · rw [if_pos h0]; rfl
  · rw [if_neg h0]
    by_cases hbig : 10 ^ 6 < (t.length : Int) * m
    · rw [if_pos hbig]; rfl
    · rw [if_neg hbig]; rfl

/-- Claim C4, counterexample to the original statement: the text value
`"a"` and the non-negative factor `2 ^ 1024` make
`optimized_example_function` fail with `OverflowError` (the factor does
not fit in `Py_ssize_t`) instead of returning the repeated string. -/
theorem claim_C4_counterexample :
    ((0 : Int) ≤ hugeFactor) = True ∧
    isStringValue (.vStr "a") = true ∧
    (optimized_example_function (.vStr "a") hugeFactor).1 =
      .error (.overflowError indexSizedIntMsg) :=
  ⟨eq_true (by decide), rfl, rfl⟩

/-- Claim C4 witness: `claim_C4_amended` applied at `t = "Hello"`,
`m = 3`. -/
theorem claim_C4_amended_witness :
    (optimized_example_function (.vStr "Hello") 3).1 =
      .ok (.vStr (repeatStr (3 : Int).toNat "Hello")) ∧
    (repeatStr (3 : Int).toNat "Hello").length =
      "Hello".length * (3 : Int).toNat ∧
    (optimized_example_function (.vStr "Hello") 0).1 = .ok (.vStr "") ∧
    ((optimized_example_function (.vStr "Hello") 3).2.all
      fun l => l.level == "warning") = true :=
  claim_C4_amended "Hello" 3 (by decide) (by decide) (by decide)

/-- Claim C5 (amended): a negative factor always fails with `ValueError`
(`InvalidFactor`), whatever the value's kind; with a non-negative factor,
the outcome is a `TypeError` (`UnsupportedType`) exactly when the value's
kind is unsupported; for supported kinds every further failure is an
`OverflowError` — the int-to-float conversion overflow for float values,
or one of CPython's string-repetition size-check overflows for text
values. -/
theorem claim_C5_amended :
    (∀ (v : Value) (m : Int), m < 0 →
        (optimized_example_function v m).1 =
          .error (.valueError "Multiplier must be non-negative")) ∧
    (∀ (v : Value) (m : Int), ¬ m < 0 →
        exceptIsTypeError (optimized_example_function v m).1 =
          !(isSupportedType v)) ∧
    (∀ (v : Value) (m : Int), ¬ m < 0 → isSupportedType v = true →
        ((optimized_example_function v m).1.toOption.isSome = true ∨
          ∃ msg, (optimized_example_function v m).1 =
            .error (.overflowError msg))) := by
  refine ⟨fun v m hm => ?_, fun v m hm => ?_, fun v m hm hsup => ?_⟩
  · rw [opt_of_neg v m hm]
  · cases v with
    | vInt n => rw [opt_vInt n m hm]; rfl
    | vFloat q =>
        by_cases hc : floatMaxConvert ≤ m.natAbs
        · rw [opt_vFloat_overflow q m hm hc]; rfl
        · rw [opt_vFloat_ok q m hm hc]; rfl
    | vStr s =>
        rw [opt_vStr s m hm]
        rcases hsm : strMul s m with e2 | r2
        · obtain ⟨msg, rfl⟩ := strMul_error_overflow s m e2 hsm
          rfl
        · rfl
    | vNone => rw [opt_unsupported .vNone m hm rfl rfl]; rfl
    | vList l => rw [opt_unsupported (.vList l) m hm rfl rfl]; rfl
    | vDict d => rw [opt_unsupported (.vDict d) m hm rfl rfl]; rfl
  · cases v with
    | vInt n => left; rw [opt_vInt n m hm]; rfl
    | vFloat q =>
        by_cases hc : floatMaxConvert ≤ m.natAbs
        · right
          exact ⟨"int too large to convert to float",
            by rw [opt_vFloat_overflow q m hm hc]⟩
        · left; rw [opt_vFloat_ok q m hm hc]; rfl
    | vStr s =>
        rcases hsm : strMul s m with e2 | r2
        · right
          obtain ⟨msg, rfl⟩ := strMul_error_overflow s m e2 hsm
          refine ⟨msg, ?_⟩
          rw [opt_vStr s m hm, hsm]
          rfl
        · left
          rw [opt_vStr s m hm, hsm]
          rfl
    | vNone => simp [isSupportedType, isNumericValue, isStringValue] at hsup
    | vList l => simp [isSupportedType, isNumericValue, isStringValue] at hsup
    | vDict d => simp [isSupportedType, isNumericValue, isStringValue] at hsup

/-- Claim C5, counterexample to the original statement: the in-range input
(float value `2.0`, non-negative factor `2 ^ 1024 + 3`) fails — with
`OverflowError`, a failure mode beyond the two the claim allows. -/
theorem claim_C5_counterexample :
    ((0 : Int) ≤ hugeFactor + 3) = True ∧
    isSupportedType (.vFloat 2) = true ∧
    (optimized_example_function (.vFloat 2) (hugeFactor + 3)).1.toOption.isSome
      = false ∧
    (optimized_example_function (.vFloat 2) (hugeFactor + 3)).1 =
      .error (.overflowError "int too large to convert to float") :=
  ⟨eq_true (by decide), rfl, rfl, rfl⟩

/-- Claim C5 witness: `claim_C5_amended` applied at concrete inputs. -/
theorem claim_C5_witness :
    (optimized_example_function .vNone (-1)).1 =
      .error (.valueError "Multiplier must be non-negative") ∧
    exceptIsTypeError (optimized_example_function .vNone 2).1 =
      !(isSupportedType .vNone) ∧
    ((optimized_example_function (.vInt 3) 4).1.toOption.isSome = true ∨
      ∃ msg, (optimized_example_function (.vInt 3) 4).1 =
        .error (.overflowError msg)) :=
  ⟨claim_C5_amended.1 .vNone (-1) (by decide),
   claim_C5_amended.2.1 .vNone 2 (by decide),
   claim_C5_amended.2.2 (.vInt 3) 4 (by decide) rfl⟩

/-! Claim C8: error reporting of the safe wrapper. -/

/-- Claim C8 (amended): every failure `optimized_example_function` can
actually raise is one of the three kinds the first `except` clause catches
(`TypeError`, `ValueError`, `OverflowError`), and `safe_example_function`
reports each of them with its own class name and original message —
including `OverflowError`; only failures outside those three kinds are
replaced by the generic `UnexpectedError` entry (with the original message
kept out of the result and only logged). -/
theorem claim_C8_amended :
    (∀ (v : Value) (m : Int) (e : PyError),
        (optimized_example_function v m).1 = .error e →
        isExpectedErr e = true ∧
        (safe_example_function v m).1.error =
          some ⟨pyErrName e, pyErrMsg e⟩) ∧
    (∀ name msg : String,
        exceptionToErrorInfo (.otherError name msg) =
          (⟨"UnexpectedError", "An unexpected error occurred"⟩,
           [⟨"error",
             "Unexpected error in safe_example_function: " ++ msg⟩])) := by
  refine ⟨fun v m e h => ?_, fun name msg => rfl⟩
  have hex := opt_error_expected v m e h
  rcases hp : optimized_example_function v m with ⟨out, logs⟩
  rw [hp] at h
  cases out with
  | ok r => exact absurd h (by simp)
  | error e2 =>
      have he : e2 = e := by injection h
      subst he
      refine ⟨hex, ?_⟩
      rw [safe_of_error v m e2 logs hp]
      show some (exceptionToErrorInfo e2).1 = _
      unfold exceptionToErrorInfo
      rw [if_pos hex]

/-- Claim C8, counterexample to the original statement: on the float value
`3.5` with factor `2 ^ 1024`, `optimized_example_function` fails with
`OverflowError` — neither `InvalidFactor` nor `UnsupportedType` — yet
`safe_example_function` stores the kind `OverflowError` and the original
message in the result, not the generic `UnexpectedError` entry. -/
theorem claim_C8_counterexample :
    (optimized_example_function (.vFloat (7 / 2)) hugeFactor).1 =
      .error (.overflowError "int too large to convert to float") ∧
    (safe_example_function (.vFloat (7 / 2)) hugeFactor).1.error =
      some ⟨"OverflowError", "int too large to convert to float"⟩ ∧
    (("OverflowError" : String) == "UnexpectedError") = false ∧
    (("int too large to convert to float" : String) ==
      "An unexpected error occurred") = false :=
  ⟨rfl, rfl, by decide, by decide⟩

/-- Claim C8 witness: `claim_C8_amended` applied to the unsupported-type
failure at `None` with factor `2`. -/
theorem claim_C8_amended_witness :
    isExpectedErr (.typeError (unsupportedMsg .vNone)) = true ∧
    (safe_example_function .vNone 2).1.error =
      some ⟨pyErrName (.typeError (unsupportedMsg .vNone)),
            pyErrMsg (.typeError (unsupportedMsg .vNone))⟩ :=
  claim_C8_amended.1 .vNone 2 (.typeError (unsupportedMsg .vNone)) rfl

/-! Batch processing: the grouped write-back equals the naive map. -/

lemma writeResults_cons (m : Int) (rs : List (Option SafeResult))
    (p : Nat × Value) (g : List (Nat × Value)) :
    writeResults m rs (p :: g) =
      writeResults m (rs.set p.1 (some (safe_example_function p.2 m).1)) g :=
  rfl

lemma writeResults_length (m : Int) (g : List (Nat × Value)) :
    ∀ rs, (writeResults m rs g).length = rs.length := by
  induction g with
  | nil => intro rs; rfl
  | cons p g ih =>
      intro rs
      rw [writeResults_cons, ih, List.length_set]

lemma writeResults_getElem?_not_mem (m : Int) (g : List (Nat × Value))
    (j : Nat) : ∀ rs, (∀ p ∈ g, p.1 ≠ j) →
      (writeResults m rs g)[j]? = rs[j]? := by
  induction g with
  | nil => intro rs _; rfl
  | cons p g ih =>
      intro rs hj
      rw [writeResults_cons, ih _ fun q hq => hj q (List.mem_cons_of_mem p hq)]
      exact List.getElem?_set_ne (hj p (List.mem_cons_self p g))

lemma writeResults_getElem?_mem (m : Int) (g : List (Nat × Value)) (j : Nat)
    (v : Value) : ∀ rs,
      g.Pairwise (fun a b => a.1 ≠ b.1) → (j, v) ∈ g → j < rs.length →
      (writeResults m rs g)[j]? = some (some (safe_example_function v m).1) := by
  induction g with
  | nil => intro rs _ hmem _; cases hmem
  | cons p g ih =>
      intro rs hnd hmem hj
      rw [writeResults_cons]
      rcases List.mem_cons.mp hmem with heq | hmem2
      · have hj1 : p.1 = j := by rw [← heq]
        have hv2 : p.2 = v := by rw [← heq]
        have hng : ∀ q ∈ g, q.1 ≠ j := by
          intro q hq hc
          exact (List.pairwise_cons.mp hnd).1 q hq (hj1.trans hc.symm)
        rw [writeResults_getElem?_not_mem m g j _ hng, hj1, hv2,
          List.getElem?_set_self hj]
      · have hp1 : p.1 ≠ j :=
          fun hc => (List.pairwise_cons.mp hnd).1 (j, v) hmem2 hc
        exact ih _ (List.pairwise_cons.mp hnd).2 hmem2
          (by rw [List.length_set]; exact hj)

lemma mem_enumFrom (xs : List Value) :
    ∀ (k : Nat) (p : Nat × Value), p ∈ enumFrom k xs →
      k ≤ p.1 ∧ xs[p.1 - k]? = some p.2 := by
  induction xs with
  | nil => intro k p hp; cases hp
  | cons x xs ih =>
      intro k p hp
      rcases List.mem_cons.mp hp with heq | hmem
      · subst heq
        exact ⟨Nat.le_refl k, by simp⟩
      · obtain ⟨h1, h2⟩ := ih (k + 1) p hmem
        refine ⟨Nat.le_trans (Nat.le_succ k) h1, ?_⟩
        have hd : p.1 - k = (p.1 - (k + 1)) + 1 := by omega
        rw [hd]
        simpa using h2

lemma enumFrom_mem (xs : List Value) :
    ∀ (k d : Nat) (v : Value), xs[d]? = some v →
      (k + d, v) ∈ enumFrom k xs := by
  induction xs with
  | nil => intro k d v h; simp at h
  | cons x xs ih =>
      intro k d v h
      cases d with
      | zero =>
          simp only [List.getElem?_cons_zero, Option.some.injEq] at h
          subst h
          exact List.mem_cons_self _ _
      | succ d2 =>
          have hmem := ih (k + 1) d2 v (by simpa using h)
          have heq : (k + 1) + d2 = k + (d2 + 1) := by omega
          exact List.mem_cons_of_mem _ (heq ▸ hmem)

lemma enumFrom_pairwise (xs : List Value) :
    ∀ k, (enumFrom k xs).Pairwise (fun a b => a.1 ≠ b.1) := by
  induction xs with
  | nil => intro k; exact List.Pairwise.nil
  | cons x xs ih =>
      intro k
      refine List.pairwise_cons.mpr ⟨?_, ih (k + 1)⟩
      intro q hq
      have hk := (mem_enumFrom xs (k + 1) q hq).1
      show k ≠ q.1
      omega

lemma groupPairs_go (ps : List (Nat × Value)) :
    ∀ a b c : List (Nat × Value),
      ps.foldl
        (fun acc p =>
          if isNumericValue p.2 then (acc.1 ++ [p], acc.2.1, acc.2.2)
          else if isStringValue p.2 then (acc.1, acc.2.1 ++ [p], acc.2.2)
          else (acc.1, acc.2.1, acc.2.2 ++ [p]))
        (a, b, c) =
      (a ++ ps.filter (fun p => isNumericValue p.2),
       b ++ ps.filter (fun p => !isNumericValue p.2 && isStringValue p.2),
       c ++ ps.filter (fun p => !isNumericValue p.2 && !isStringValue p.2)) := by
  induction ps with
  | nil => intro a b c; simp
  | cons p ps ih =>
      intro a b c
      by_cases h1 : isNumericValue p.2
      · simp [List.filter_cons, h1, ih, List.append_assoc]
      · by_cases h2 : isStringValue p.2
        · simp [List.filter_cons, h1, h2, ih, List.append_assoc]
        · simp [List.filter_cons, h1, h2, ih, List.append_assoc]

lemma groupPairs_eq (ps : List (Nat × Value)) :
    groupPairs ps =
      (ps.filter (fun p => isNumericValue p.2),
       ps.filter (fun p => !isNumericValue p.2 && isStringValue p.2),
       ps.filter (fun p => !isNumericValue p.2 && !isStringValue p.2)) := by
  have h := groupPairs_go ps [] [] []
  simpa [groupPairs] using h

/-- The central batch lemma: the three-group write-back of
`batch_process_values` produces exactly the naive element-wise map of
`safe_example_function` over the input list. -/
lemma batchRun_results (xs : List Value) (m : Int) :
    (batchRun xs m).results =
      xs.map fun v => some (safe_example_function v m).1 := by
  apply List.ext_getElem?
  intro j
  show (writeResults m
      (writeResults m
        (writeResults m (List.replicate xs.length none)
          (groupPairs (enumFrom 0 xs)).1)
        (groupPairs (enumFrom 0 xs)).2.1)
      (groupPairs (enumFrom 0 xs)).2.2)[j]? = _
  have hg1 : (groupPairs (enumFrom 0 xs)).1 =
      (enumFrom 0 xs).filter (fun p => isNumericValue p.2) := by
    rw [groupPairs_eq]
  have hg2 : (groupPairs (enumFrom 0 xs)).2.1 =
      (enumFrom 0 xs).filter
        (fun p => !isNumericValue p.2 && isStringValue p.2) := by
    rw [groupPairs_eq]
  have hg3 : (groupPairs (enumFrom 0 xs)).2.2 =
      (enumFrom 0 xs).filter
        (fun p => !isNumericValue p.2 && !isStringValue p.2) := by
    rw [groupPairs_eq]
  rw [hg1, hg2, hg3]
  by_cases hj : j < xs.length
  · have hv : xs[j]? = some xs[j] := List.getElem?_eq_getElem hj
    have hmem0 : (j, xs[j]) ∈ enumFrom 0 xs := by
      have h0 := enumFrom_mem xs 0 j xs[j] hv
      simpa using h0
    have hvuniq : ∀ p ∈ enumFrom 0 xs, p.1 = j → p = (j, xs[j]) := by
      intro p hp hpj
      obtain ⟨-, h2⟩ := mem_enumFrom xs 0 p hp
      rcases p with ⟨p1, p2⟩
      simp only at hpj
      subst hpj
      simp only [Nat.sub_zero] at h2
      rw [hv] at h2
      have hp2 : p2 = xs[p1] := (Option.some.inj h2).symm
      rw [hp2]
    have hnotin : ∀ q : Nat × Value → Bool, q (j, xs[j]) = false →
        ∀ p ∈ (enumFrom 0 xs).filter q, p.1 ≠ j := by
      intro q hq p hp hpj
      obtain ⟨hpmem, hpq⟩ := List.mem_filter.mp hp
      rw [hvuniq p hpmem hpj, hq] at hpq
      exact Bool.false_ne_true hpq
    have hpw : ∀ q : Nat × Value → Bool,
        ((enumFrom 0 xs).filter q).Pairwise (fun a b => a.1 ≠ b.1) :=
      fun q => (enumFrom_pairwise xs 0).sublist (List.filter_sublist _)
    by_cases h1 : isNumericValue xs[j]
    · have hw1 := writeResults_getElem?_mem m
        ((enumFrom 0 xs).filter (fun p => isNumericValue p.2)) j xs[j]
        (List.replicate xs.length none) (hpw _)
        (List.mem_filter.mpr ⟨hmem0, by simpa using h1⟩)
        (by rw [List.length_replicate]; exact hj)
      rw [writeResults_getElem?_not_mem m _ j _ (hnotin _ (by simp [h1])),
        writeResults_getElem?_not_mem m _ j _ (hnotin _ (by simp [h1])),
        hw1, List.getElem?_map, hv]
      rfl
    · by_cases h2 : isStringValue xs[j]
      · have hw2 := writeResults_getElem?_mem m
          ((enumFrom 0 xs).filter
            (fun p => !isNumericValue p.2 && isStringValue p.2)) j xs[j]
          (writeResults m (List.replicate xs.length none)
            ((enumFrom 0 xs).filter (fun p => isNumericValue p.2)))
          (hpw _)
          (List.mem_filter.mpr ⟨hmem0, by simp [h1, h2]⟩)
          (by rw [writeResults_length, List.length_replicate]; exact hj)
        rw [writeResults_getElem?_not_mem m _ j _ (hnotin _ (by simp [h1, h2])),
          hw2, List.getElem?_map, hv]
        rfl
      · have hw3 := writeResults_getElem?_mem m
          ((enumFrom 0 xs).filter
            (fun p => !isNumericValue p.2 && !isStringValue p.2)) j xs[j]
          (writeResults m
            (writeResults m (List.replicate xs.length none)
              ((enumFrom 0 xs).filter (fun p => isNumericValue p.2)))
            ((enumFrom 0 xs).filter
              (fun p => !isNumericValue p.2 && isStringValue p.2)))
          (hpw _)
          (List.mem_filter.mpr ⟨hmem0, by simp [h1, h2]⟩)
          (by rw [writeResults_length, writeResults_length,
                List.length_replicate];
              exact hj)
        rw [hw3, List.getElem?_map, hv]
        rfl
  · have hle : xs.length ≤ j := Nat.le_of_not_lt hj
    rw [List.getElem?_eq_none
        (by rw [writeResults_length, writeResults_length, writeResults_length,
              List.length_replicate];
            exact hle),
      List.getElem?_eq_none (by rw [List.length_map]; exact hle)]

/-- Claim C2: on a list input, `batch_process_values` returns a list of
the same length whose entry at every index `i` is exactly
`safe_example_function` applied to the input's entry at `i` — the grouped
implementation equals the naive element-wise map, so the internal
partitioning never changes which result lands at which index. -/
theorem claim_C2 (xs : List Value) (m : Int) :
    batch_process_values (.vList xs) m =
      .ok (xs.map fun v => some (safe_example_function v m).1) := by
  show Except.ok (batchRun xs m).results = _
  rw [batchRun_results]

/-- Claim C9 (amended): `batch_process_values` completes exactly on list
arguments; every non-list argument — including other sequence types such
as text — is rejected with `TypeError("Values must be a list")`; on a list
it always returns a result list with one entry per input element. -/
theorem claim_C9_amended :
    (∀ (v : Value) (m : Int),
        (batch_process_values v m).toOption.isSome = isListValue v) ∧
    (∀ (v : Value) (m : Int), isListValue v = false →
        batch_process_values v m =
          .error (.typeError "Values must be a list")) ∧
    (∀ (xs : List Value) (m : Int),
        ∃ rs, batch_process_values (.vList xs) m = .ok rs ∧
          rs.length = xs.length) := by
  refine ⟨fun v m => ?_, fun v m h => ?_, fun xs m => ?_⟩
  · cases v <;> rfl
  · cases v with
    | vList xs => exact absurd h (by simp [isListValue])
    | vInt n => rfl
    | vFloat q => rfl
    | vStr s => rfl
    | vNone => rfl
    | vDict d => rfl
  · exact ⟨(batchRun xs m).results, rfl,
      by rw [batchRun_results, List.length_map]⟩

/-- Claim C9, counterexample to the original statement: the text value
`"ab"` is a sequence-typed value, yet `batch_process_values` rejects it
with the argument-type failure instead of completing. -/
theorem claim_C9_counterexample :
    isSequenceType (.vStr "ab") = true ∧
    batch_process_values (.vStr "ab") 2 =
      .error (.typeError "Values must be a list") :=
  ⟨rfl, rfl⟩

/-- Claim C9 witness: `claim_C9_amended` applied at concrete inputs. -/
theorem claim_C9_witness :
    (batch_process_values .vNone 2).toOption.isSome = isListValue .vNone ∧
    batch_process_values .vNone 2 =
      .error (.typeError "Values must be a list") ∧
    ∃ rs, batch_process_values (.vList [.vInt 1]) 2 = .ok rs ∧
      rs.length = [Value.vInt 1].length :=
  ⟨claim_C9_amended.1 .vNone 2, claim_C9_amended.2.1 .vNone 2 rfl,
   claim_C9_amended.2.2 [.vInt 1] 2⟩

/-- Claim C10: `batch_process_values` never writes to its input list —
in the state-threaded embedding, where every list read and write the
source performs acts on a `BatchState`, the `input` component after the
run is exactly the initial list, and all results live in the freshly
allocated `results` list (one entry per input element, in input order). -/
theorem claim_C10 (xs : List Value) (m : Int) :
    (batchRun xs m).input = xs ∧
    (batchRun xs m).results =
      xs.map fun v => some (safe_example_function v m).1 :=
  ⟨rfl, batchRun_results xs m⟩
